import Mathlib

/-!
Verification of the SIB prover service (prover-service/worker.py,
prover-service/main.py) against its natural-language specification.

The Python source is shallowly embedded: pure functions become Lean
functions, floating-point values are idealized as real numbers, and the
effects of the Celery task (progress reports through `update_state`,
exceptions, results of external `ezkl` library calls and file-system
probes) are made explicit as an environment record and a returned trace
of progress values.
-/

set_option maxRecDepth 100000

namespace SIB

/-! ## Hex encoding (Python `int.to_bytes(..).hex()` and `bytes.hex()`) -/

/-- Lower-case hexadecimal digit character for a value `d < 16`,
matching Python's `hex` rendering. -/
def hexDigitChar (d : Nat) : Char :=
  if d < 10 then Char.ofNat (48 + d) else Char.ofNat (87 + d)

/-- Big-endian fixed-width hexadecimal rendering of `v` using `w` digits,
as produced by Python's `v.to_bytes(w/2, "big").hex()` when `v < 16^w`. -/
def toHexBE : Nat → Nat → List Char
  | 0, _ => []
  | w + 1, v => toHexBE w (v / 16) ++ [hexDigitChar (v % 16)]

/-- Numeric value of a hexadecimal digit character (lower-case alphabet). -/
def hexCharVal (c : Char) : Nat :=
  if c.toNat ≥ 97 then c.toNat - 87 else c.toNat - 48

/-- Parse a big-endian hexadecimal digit string to an unsigned integer,
as `int(s, 16)` does in Python. -/
def decodeHex (cs : List Char) : Nat :=
  cs.foldl (fun a c => 16 * a + hexCharVal c) 0

/-- Alphabet accepted by `int(_, 16)` for the lower-case renderings
produced by the worker. -/
def hexAlphabet : List Char := "0123456789abcdef".data

/-- A character is a valid lower-case hexadecimal digit. -/
def isHexChar (c : Char) : Bool := hexAlphabet.contains c

/-- Hex rendering of a byte string (`bytes.hex()`): two digits per byte. -/
def bytesToHex (bs : List Nat) : List Char :=
  (bs.map (toHexBE 2)).flatten

/-! ## SHA-256 (Python `hashlib.sha256`), over byte lists

Words are `Nat` values kept below `2 ^ 32` by explicit reduction. -/

/-- Word modulus of the SHA-256 compression function. -/
def M32 : Nat := 2 ^ 32

/-- Right rotation of a 32-bit word. -/
def rotr (r v : Nat) : Nat := ((v >>> r) ||| (v <<< (32 - r))) % M32

/-- Bitwise complement of a 32-bit word. -/
def compl32 (x : Nat) : Nat := x ^^^ (M32 - 1)

/-- SHA-256 round constants `K`, written in decimal. -/
def shaK : List Nat :=
  [1116352408, 1899447441, 3049323471, 3921009573, 961987163,
   1508970993, 2453635748, 2870763221, 3624381080, 310598401,
   607225278, 1426881987, 1925078388, 2162078206, 2614888103,
   3248222580, 3835390401, 4022224774, 264347078, 604807628,
   770255983, 1249150122, 1555081692, 1996064986, 2554220882,
   2821834349, 2952996808, 3210313671, 3336571891, 3584528711,
   113926993, 338241895, 666307205, 773529912, 1294757372,
   1396182291, 1695183700, 1986661051, 2177026350, 2456956037,
   2730485921, 2820302411, 3259730800, 3345764771, 3516065817,
   3600352804, 4094571909, 275423344, 430227734, 506948616,
   659060556, 883997877, 958139571, 1322822218, 1537002063,
   1747873779, 1955562222, 2024104815, 2227730452, 2361852424,
   2428436474, 2756734187, 3204031479, 3329325298]

/-- SHA-256 initial hash state, written in decimal. -/
def shaInit : List Nat :=
  [1779033703, 3144134277, 1013904242, 2773480762, 1359893119,
   2600822924, 528734635, 1541459225]

/-- Big-endian byte rendering of a value using `w` bytes. -/
def natToBytesBE (w v : Nat) : List Nat :=
  (List.range w).map (fun k => v >>> (8 * (w - 1 - k)) % 256)

/-- SHA-256 message padding: append `0x80`, zero bytes up to 56 mod 64,
then the 64-bit big-endian bit length. -/
def shaPad (msg : List Nat) : List Nat :=
  let z := (64 + 56 - (msg.length + 1) % 64) % 64
  msg ++ [0x80] ++ List.replicate z 0 ++ natToBytesBE 8 (8 * msg.length)

/-- Group a byte list into big-endian 32-bit words. -/
def bytesToWords : List Nat → List Nat
  | a :: b :: c :: d :: rest => (((a * 256 + b) * 256 + c) * 256 + d) :: bytesToWords rest
  | _ => []

/-- Split a word list into blocks of 16 words; `fuel` bounds the recursion
so that the definition is structural and kernel-reducible. -/
def chunks16 : Nat → List Nat → List (List Nat)
  | 0, _ => []
  | _, [] => []
  | fuel + 1, w :: ws => ((w :: ws).take 16) :: chunks16 fuel ((w :: ws).drop 16)

/-- SHA-256 message schedule: extend a 16-word block to 64 words. -/
def shaSchedule (block : List Nat) : List Nat :=
  (List.range 64).foldl
    (fun acc i =>
      if i < 16 then acc ++ [block.getD i 0]
      else
        let s0 :=
          rotr 7 (acc.getD (i - 15) 0) ^^^ rotr 18 (acc.getD (i - 15) 0) ^^^
            (acc.getD (i - 15) 0 >>> 3)
        let s1 :=
          rotr 17 (acc.getD (i - 2) 0) ^^^ rotr 19 (acc.getD (i - 2) 0) ^^^
            (acc.getD (i - 2) 0 >>> 10)
        acc ++ [(acc.getD (i - 16) 0 + s0 + acc.getD (i - 7) 0 + s1) % M32])
    []

/-- One SHA-256 compression round acting on the 8-word working state. -/
def shaRound (w : List Nat) (st : List Nat) (i : Nat) : List Nat :=
  match st with
  | [a0, b0, c0, d0, e0, f0, g0, h0] =>
    let S1 := rotr 6 e0 ^^^ rotr 11 e0 ^^^ rotr 25 e0
    let ch := (e0 &&& f0) ^^^ (compl32 e0 &&& g0)
    let t1 := (h0 + S1 + ch + shaK.getD i 0 + w.getD i 0) % M32
    let S0 := rotr 2 a0 ^^^ rotr 13 a0 ^^^ rotr 22 a0
    let mj := (a0 &&& b0) ^^^ (a0 &&& c0) ^^^ (b0 &&& c0)
    let t2 := (S0 + mj) % M32
    [(t1 + t2) % M32, a0, b0, c0, (d0 + t1) % M32, e0, f0, g0]
  | _ => st

/-- SHA-256 compression of one 16-word block into the running hash state. -/
def shaCompress (hs : List Nat) (block : List Nat) : List Nat :=
  let w := shaSchedule block
  let fin := (List.range 64).foldl (shaRound w) hs
  List.zipWith (fun x y => (x + y) % M32) hs fin

/-- SHA-256 digest of a byte string, as a 256-bit unsigned integer read
big-endian (Python's `int.from_bytes(hashlib.sha256(m).digest(), "big")`). -/
def sha256Nat (msg : List Nat) : Nat :=
  let ws := bytesToWords (shaPad msg)
  let hs := (chunks16 ws.length ws).foldl shaCompress shaInit
  hs.foldl (fun a w => a * M32 + w) 0

/-- SHA-256 digest of a byte string as its 32-byte big-endian encoding
(Python's `hashlib.sha256(m).digest()`). -/
def sha256Bytes (msg : List Nat) : List Nat := natToBytesBE 32 (sha256Nat msg)

/-- Byte sequence of an ASCII string, as Python's `s.encode()` for the
ASCII strings hashed by the worker. -/
def strBytes (s : String) : List Nat := s.data.map Char.toNat

/-! ## Field constants -/

/-- The scalar-field modulus hard-coded in `_run_simulated`
(worker.py line 219); it is the BN254 scalar-field order. -/
def BN254_FIELD : Nat :=
  0x30644e72e131a029b85045b68181585d2833e84879b9709143e1f593f0000001

/-- The 63-hex-digit constant that the specification names as "the BN254
scalar field modulus" (spec sections 4.4 and 8); kept verbatim so the
spec's bound can be stated exactly as written. -/
def specQuotedModulus : Nat :=
  0x30644e72e131a029b85045b68181585d2833e84879b9709143e1f593f000001

/-! ## Statistic Calculator (`compute_sharpe`, worker.py lines 54-63)

Floating-point arithmetic (`np.mean`, `np.std`, `math.sqrt`) is idealized
over the real numbers; the threshold `1e-8` is the exact rational
`1 / 10 ^ 8`. `np.std` divides by `n` (population standard deviation). -/

/-- Annualized Sharpe ratio from daily returns, translated from
`compute_sharpe`: `0` below 2 samples or when the standard deviation
computed with divisor `n` is below `1e-8`, else `mean / std * sqrt 252`. -/
noncomputable def compute_sharpe (returns : List ℝ) : ℝ :=
  if returns.length < 2 then 0
  else if Real.sqrt (((returns.map
      (fun x => (x - returns.sum / returns.length) ^ 2)).sum) / returns.length)
      < 1 / 10 ^ 8 then 0
  else (returns.sum / returns.length) /
      Real.sqrt (((returns.map
        (fun x => (x - returns.sum / returns.length) ^ 2)).sum) / returns.length) *
      Real.sqrt 252

/-- Arithmetic mean of a list of reals (spec-side helper). -/
noncomputable def listMean (r : List ℝ) : ℝ := r.sum / r.length

/-- Standard deviation with divisor `n` (population standard deviation,
the default of `np.std`), written from the spec's formula vocabulary. -/
noncomputable def popStd (r : List ℝ) : ℝ :=
  Real.sqrt (((r.map (fun x => (x - r.sum / r.length) ^ 2)).sum) / r.length)

/-- Sample standard deviation with Bessel's correction (divisor `n - 1`),
the textbook meaning of the spec's phrase "sample standard deviation". -/
noncomputable def sampleStd (r : List ℝ) : ℝ :=
  Real.sqrt (((r.map (fun x => (x - r.sum / r.length) ^ 2)).sum) / ((r.length : ℝ) - 1))

/-- Python's `round(x, 4)`, idealized over the reals. Python rounds exact
ties to even while `round` rounds them up; the two agree everywhere else
and no claim here depends on tie behavior. -/
noncomputable def pyRound4 (x : ℝ) : ℝ := ((round (x * 10 ^ 4) : ℤ) : ℝ) / 10 ^ 4

/-! ## Simulated Proof Strategy (`_run_simulated`, worker.py lines 179-235)

The strategy hashes Python-rendered strings whose exact text depends on
the float `repr` of the statistic and of `time.time()`; those renderings
enter the model as opaque string parameters of the environment. -/

/-- Environment of one `_run_simulated` call: the Python text renderings
and wall-clock readings that feed its hashes, plus the measured elapsed
time placed in the result. -/
structure SimEnv where
  /-- Rendering of the statistic in the f-string `f"inst_{i}_{sharpe}_..."`. -/
  sharpeStr : String
  /-- Rendering of `time.time()` in the i-th instance discriminator. -/
  tsStr : Nat → String
  /-- The string `json.dumps({"returns": returns[:10], "sharpe": ..., "ts": ...})`. -/
  payload : String
  /-- Elapsed seconds recorded as `proving_time`. -/
  elapsed : ℝ

/-- Discriminator string hashed for the i-th simulated instance
(worker.py line 222). -/
def simDisc (env : SimEnv) (i : Nat) : String :=
  "inst_" ++ toString i ++ "_" ++ env.sharpeStr ++ "_" ++ env.tsStr i

/-- Field value of the i-th simulated instance: SHA-256 of the
discriminator, read big-endian, reduced modulo `BN254_FIELD`
(worker.py lines 222-223). -/
def simInstVal (env : SimEnv) (i : Nat) : Nat :=
  sha256Nat (strBytes (simDisc env i)) % BN254_FIELD

/-- The 31 simulated instance strings: each value re-encoded as 32
big-endian bytes and hex-rendered with a `0x` prefix (worker.py
lines 220-224). -/
def simInstances (env : SimEnv) : List String :=
  (List.range 31).map (fun i => "0x" ++ String.mk (toHexBE 64 (simInstVal env i)))

/-- The simulated `proof_hex`: SHA-256 seed of the payload repeated 96
times, hex-encoded with a `0x` prefix (worker.py lines 212-215). -/
def simProofHex (env : SimEnv) : String :=
  "0x" ++ String.mk (bytesToHex (List.replicate 96 (sha256Bytes (strBytes env.payload))).flatten)

/-- Integer value encoded by an instance string: strip the `0x` prefix
and parse the remaining digits big-endian. -/
def instanceValue (s : String) : Nat := decodeHex (s.data.drop 2)

/-! ## Exceptions and results -/

/-- Python exceptions relevant to the executor's `try/except` structure:
`except FileNotFoundError` catches precisely the first constructor,
`except Exception` the rest. Each carries its `str(e)` description. -/
inductive PyErr where
  | fileNotFound (msg : String)
  | other (msg : String)
deriving DecidableEq

/-- The description `str(e)` of an exception. -/
def PyErr.message : PyErr → String
  | .fileNotFound m => m
  | .other m => m

/-- The result dictionary built by either strategy and stamped by the
executor. `statistic_value` is the dict key `"sharpe_ratio"` (the spec's
ProofResult field `statistic_value`). -/
structure ProofResult where
  statistic_value : ℝ
  proof_hex : String
  instances : List String
  verified : Bool
  proving_time : ℝ
  mode : String
  job_id : String := ""
  agent_id : String := ""

/-! ## Real Proof Strategy (`_run_real_ezkl`, worker.py lines 66-176)

File-system probes and the three external `ezkl` library calls are
oracles recorded in an environment; each call either returns or raises.
The returned trace lists the progress values the strategy reports via
`self.update_state`, in order. -/

/-- Environment of one `_run_real_ezkl` call. -/
structure RealEnv where
  /-- The configured `MODEL_DIR` string (only echoed in error text). -/
  modelDir : String
  /-- Existence of `sharpe_model.onnx`. -/
  modelExists : Bool
  /-- Existence of `settings.json`. -/
  settingsExists : Bool
  /-- Existence of `circuit.ezkl`. -/
  circuitExists : Bool
  /-- Existence of `pk.key`. -/
  pkExists : Bool
  /-- Existence of `vk.key`. -/
  vkExists : Bool
  /-- Existence of `kzg.srs`. -/
  srsExists : Bool
  /-- Parsed `norm_params.json` (`x_mean`, `x_std`) when that optional
  file exists, `none` when it does not. -/
  normParams : Option (List ℝ × List ℝ)
  /-- Outcome of `ezkl.gen_witness`. -/
  genWitnessResult : Except PyErr Unit
  /-- Outcome of `ezkl.prove`. -/
  proveResult : Except PyErr Unit
  /-- Outcome of `ezkl.verify`. -/
  verifyResult : Except PyErr Bool
  /-- `proof_data.get("hex_proof", "")` of the written proof file. -/
  hexProof : String
  /-- `proof_data.get("proof", [])` as a byte list. -/
  rawProof : List Nat
  /-- `proof_data.get("pretty_public_inputs", {}).get("inputs", [[]])`. -/
  ppiInputs : List (List String)
  /-- Elapsed seconds recorded as `proving_time`. -/
  elapsed : ℝ

/-- Artifact names whose files are absent, in the dictionary order of
`required_files` (worker.py lines 80-88). -/
def missingArtifacts (env : RealEnv) : List String :=
  ([("model", env.modelExists), ("settings", env.settingsExists),
    ("circuit", env.circuitExists), ("pk", env.pkExists),
    ("vk", env.vkExists), ("srs", env.srsExists)]).filterMap
    (fun p => if p.2 then none else some p.1)

/-- The aggregated `FileNotFoundError` message (worker.py lines 90-93). -/
def missingMsg (env : RealEnv) : String :=
  "Missing EZKL artifacts: " ++ String.intercalate ", " (missingArtifacts env) ++
    ". Run generate_proof.py first. MODEL_DIR=" ++ env.modelDir

/-- Pad with trailing `0.0` or truncate to the first 30 entries
(worker.py line 108). -/
def padTruncate30 (returns : List ℝ) : List ℝ :=
  if returns.length ≥ 30 then returns.take 30
  else returns ++ List.replicate (30 - returns.length) 0

/-- Per-feature mean used for normalization: the stored `x_mean` when the
normalization file exists, else `np.zeros(30)` (worker.py lines 98-105). -/
def normMean (norm : Option (List ℝ × List ℝ)) : List ℝ :=
  match norm with
  | some p => p.1
  | none => List.replicate 30 0

/-- Per-feature std used for normalization: the stored `x_std` when the
normalization file exists, else `np.ones(30)` (worker.py lines 98-105). -/
def normStd (norm : Option (List ℝ × List ℝ)) : List ℝ :=
  match norm with
  | some p => p.2
  | none => List.replicate 30 1

/-- The normalized circuit input `((np.array(r) - x_mean) / x_std)`
(worker.py line 109), elementwise over the padded/truncated returns. -/
noncomputable def circuitInput (norm : Option (List ℝ × List ℝ)) (returns : List ℝ) : List ℝ :=
  List.zipWith (fun x p => (x - p.1) / p.2) (padTruncate30 returns)
    ((normMean norm).zip (normStd norm))

/-- The result dictionary returned by a successful `_run_real_ezkl` run
(worker.py lines 169-176): the statistic is computed from the raw,
unnormalized `returns`; `hex_proof` is preferred and the raw byte list
hex-encoded only as fallback; instances come from
`pretty_public_inputs.inputs[0]`. -/
noncomputable def realResult (env : RealEnv) (returns : List ℝ) (verified : Bool) :
    ProofResult :=
  { statistic_value := pyRound4 (compute_sharpe returns)
    proof_hex :=
      if env.hexProof ≠ "" then env.hexProof
      else "0x" ++ String.mk (bytesToHex env.rawProof)
    instances := env.ppiInputs.headD []
    verified := verified
    proving_time := env.elapsed
    mode := "real" }

/-- One `_run_real_ezkl` execution: progress reports emitted so far are
collected in the first component; the second is the normal return or the
raised exception. -/
noncomputable def run_real_ezkl (env : RealEnv) (returns : List ℝ) :
    List Nat × Except PyErr ProofResult :=
  if missingArtifacts env ≠ [] then
    ([], .error (.fileNotFound (missingMsg env)))
  else
    match env.genWitnessResult with
    | .error e => ([30], .error e)
    | .ok _ =>
      match env.proveResult with
      | .error e => ([30, 60], .error e)
      | .ok _ =>
        match env.verifyResult with
        | .error e => ([30, 60, 85], .error e)
        | .ok verified => ([30, 60, 85], .ok (realResult env returns verified))

/-- Progress values reported by `_run_simulated`, in order
(worker.py lines 184-209). -/
def simTrace : List Nat := [25, 50, 75, 90]

/-- The result dictionary returned by `_run_simulated`
(worker.py lines 228-235); `verified` is always `True` in this mode. -/
noncomputable def simResult (env : SimEnv) (returns : List ℝ) : ProofResult :=
  { statistic_value := pyRound4 (compute_sharpe returns)
    proof_hex := simProofHex env
    instances := simInstances env
    verified := true
    proving_time := env.elapsed
    mode := "simulated" }

/-- One `_run_simulated` execution; it touches no file and raises no
exception (worker.py lines 179-235). -/
noncomputable def run_simulated (env : SimEnv) (returns : List ℝ) :
    List Nat × Except PyErr ProofResult :=
  (simTrace, .ok (simResult env returns))

/-! ## Proof Executor (`prove_task`, worker.py lines 238-275) -/

/-- Process-wide configuration and per-job environment of one executor
run: `EZKL_MODE`, the import probe `EZKL_AVAILABLE`, and the two
strategies' environments. -/
structure Env where
  ezklMode : String
  ezklAvailable : Bool
  real : RealEnv
  sim : SimEnv

/-- Strategy selection `use_real = EZKL_MODE == "real" and EZKL_AVAILABLE`
(worker.py line 254). -/
def useReal (env : Env) : Bool := env.ezklMode == "real" && env.ezklAvailable

/-- The strategy chosen by the executor for this run. -/
noncomputable def selectedRun (env : Env) (returns : List ℝ) :
    List Nat × Except PyErr ProofResult :=
  if useReal env then run_real_ezkl env.real returns
  else run_simulated env.sim returns

/-- One `prove_task` execution: the initial progress-10 report, the
selected strategy, the `except FileNotFoundError` fallback that re-runs
the simulated strategy and overwrites `mode`, the re-raise of every
other exception, and the `job_id`/`agent_id` stamping. -/
noncomputable def prove_task (env : Env) (jobId agentId : String) (returns : List ℝ) :
    List Nat × Except PyErr ProofResult :=
  match selectedRun env returns with
  | (tr, .error (.fileNotFound _)) =>
    match run_simulated env.sim returns with
    | (tr2, .ok r) =>
      (10 :: (tr ++ tr2), .ok { r with mode := "simulated (fallback)",
                                       job_id := jobId, agent_id := agentId })
    | (tr2, .error e) => (10 :: (tr ++ tr2), .error e)
  | (tr, .error e) => (10 :: tr, .error e)
  | (tr, .ok r) => (10 :: tr, .ok { r with job_id := jobId, agent_id := agentId })

/-! ## Result store states and the API Gateway status mapping
(`get_proof_status`, main.py lines 87-131) -/

/-- Raw job state as read back from the Celery result store. -/
inductive TaskState where
  | pending
  | processing (progress : Nat) (message : String)
  | success (result : ProofResult)
  | failure (info : Option PyErr)
  | custom (state : String) (progress : Nat) (message : String)

/-- The client-facing status payload returned by `GET /prove/{job_id}`. -/
structure StatusView where
  job_id : String
  status : String
  progress : Nat
  message : String
  result : Option ProofResult

/-- The status mapping of `get_proof_status` (main.py lines 87-131). -/
def get_proof_status (jobId : String) : TaskState → StatusView
  | .pending =>
    ⟨jobId, "pending", 0, "Job queued, waiting for worker...", none⟩
  | .processing p m => ⟨jobId, "processing", p, m, none⟩
  | .success r => ⟨jobId, "completed", 100, "Proof generation complete", some r⟩
  | .failure info =>
    ⟨jobId, "failed", 0,
      (match info with | some e => e.message | none => "Unknown error"), none⟩
  | .custom s p m => ⟨jobId, s.toLower, p, m, none⟩

/-- Terminal state recorded by the Celery backend for a finished task:
the external broker/result-store collaborator marks a task `SUCCESS`
with its return value, or `FAILURE` with the raised exception
(spec sections 4.2 and 4.5). -/
def finalState (outcome : Except PyErr ProofResult) : TaskState :=
  match outcome with
  | .ok r => .success r
  | .error e => .failure (some e)

/-! ## Job-id allocation (`submit_proof`, main.py lines 65-74) -/

/-- Canonical 36-character rendering of a UUID whose 32 hexadecimal
digit values are given, grouped 8-4-4-4-12 (`str(uuid.uuid4())`). -/
def uuidCanonical (d : List Nat) : List Char :=
  let hx := d.map hexDigitChar
  hx.take 8 ++ ['-'] ++ ((hx.drop 8).take 4) ++ ['-'] ++ ((hx.drop 12).take 4) ++
    ['-'] ++ ((hx.drop 16).take 4) ++ ['-'] ++ (hx.drop 20)

/-- The job id allocated by `POST /prove`: `str(uuid.uuid4())[:12]`
(main.py line 67). -/
def jobIdOf (d : List Nat) : String := String.mk ((uuidCanonical d).take 12)

/-! ## The spec's claims, stated as written -/

/-- Claim C1 as stated: the calculator returns exactly `0` for fewer than
2 values or sample standard deviation (Bessel-corrected, divisor `n - 1`)
below `1e-8`, and `mean / stddev * sqrt 252` for every other sequence. -/
def claimC1 : Prop :=
  ∀ r : List ℝ,
    ((r.length < 2 ∨ sampleStd r < 1 / 10 ^ 8) → compute_sharpe r = 0) ∧
    (¬(r.length < 2 ∨ sampleStd r < 1 / 10 ^ 8) →
      compute_sharpe r = listMean r / sampleStd r * Real.sqrt 252)

/-- Claim C2 as stated: `mode == "simulated (fallback)"` holds exactly
when the real strategy was selected and raised the missing-artifacts
condition before any side effect occurred (no progress report emitted:
empty trace), and in that case `verified == true`. -/
def claimC2 : Prop :=
  ∀ (env : Env) (jobId agentId : String) (returns : List ℝ) (r : ProofResult),
    (prove_task env jobId agentId returns).2 = .ok r →
      ((r.mode = "simulated (fallback)") ↔
        (useReal env = true ∧
          ∃ m, run_real_ezkl env.real returns = ([], .error (.fileNotFound m)))) ∧
      (r.mode = "simulated (fallback)" → r.verified = true)

/-- Claim C3 as stated: always exactly 31 instances, each a `0x`-prefixed
64-digit hex string parsing to a value strictly below the spec's quoted
modulus, obtained by hashing the per-index discriminator and reducing
modulo that quoted modulus. -/
def claimC3 : Prop :=
  ∀ env : SimEnv,
    (simInstances env).length = 31 ∧
    ∀ s ∈ simInstances env,
      s.data.take 2 = ['0', 'x'] ∧
      (s.data.drop 2).length = 64 ∧
      instanceValue s < specQuotedModulus ∧
      ∃ i < 31,
        instanceValue s = sha256Nat (strBytes (simDisc env i)) % specQuotedModulus

/-- Claim C4 as stated: the progress values reported during one
execution (10 at initialization, then the strategy reports) form a
strictly increasing sequence. -/
def claimC4 : Prop :=
  ∀ (env : Env) (jobId agentId : String) (returns : List ℝ),
    List.Chain' (· < ·) (prove_task env jobId agentId returns).1

/-- Claim C5 as stated: whenever the selected strategy raises an
exception other than the missing-required-artifacts condition — the
condition being the up-front aggregated artifact-check abort, which
raises with no progress yet reported (empty trace) — the executor
performs no retry: that same exception is the task's outcome and the
finalized job maps to status `failed` with the exception's description
as the message. -/
def claimC5 : Prop :=
  ∀ (env : Env) (jobId agentId : String) (returns : List ℝ) (e : PyErr),
    (selectedRun env returns).2 = .error e →
    (¬∃ m, selectedRun env returns = ([], .error (.fileNotFound m))) →
    (prove_task env jobId agentId returns).2 = .error e ∧
    get_proof_status jobId (finalState (prove_task env jobId agentId returns).2) =
      ⟨jobId, "failed", 0, e.message, none⟩

/-- The external proving-library calls of one run raise no exception of
class `FileNotFoundError` (they may still fail with other exceptions).
The spec's interface contract never has the library signal missing
files for paths the worker already checked. -/
def noLibFnf (env : RealEnv) : Prop :=
  (∀ m, env.genWitnessResult ≠ .error (.fileNotFound m)) ∧
  (∀ m, env.proveResult ≠ .error (.fileNotFound m)) ∧
  (∀ m, env.verifyResult ≠ .error (.fileNotFound m))

/-! ## Concrete environments used as witnesses and counterexamples -/

/-- A simulated-strategy environment in which the statistic rendered as
`"0.0"` and every `time.time()` call rendered as `"1700000000.0"`. -/
noncomputable def env0 : SimEnv :=
  { sharpeStr := "0.0", tsStr := fun _ => "1700000000.0", payload := "", elapsed := 0 }

/-- A real-strategy environment where all six artifacts are present and
every library call succeeds, with `ezkl.verify` returning `b`. -/
noncomputable def realEnvOk (b : Bool) : RealEnv :=
  { modelDir := "/app/model", modelExists := true, settingsExists := true,
    circuitExists := true, pkExists := true, vkExists := true, srsExists := true,
    normParams := none, genWitnessResult := .ok (), proveResult := .ok (),
    verifyResult := .ok b, hexProof := "0xabcd", rawProof := [], ppiInputs := [[]],
    elapsed := 0 }

/-- The same environment but with `ezkl.gen_witness` raising an
exception of class `FileNotFoundError` from inside the library call,
after the artifact check has passed and progress 30 was reported. -/
noncomputable def envLibFnf : Env :=
  { ezklMode := "real", ezklAvailable := true,
    real := { (realEnvOk true) with genWitnessResult := .error (.fileNotFound "witness input vanished") },
    sim := env0 }

/-- A real-mode configuration with all six artifacts missing
(the spec's fallback scenario). -/
noncomputable def envAllMissing : Env :=
  { ezklMode := "real", ezklAvailable := true,
    real := { (realEnvOk true) with
              modelExists := false
              settingsExists := false
              circuitExists := false
              pkExists := false
              vkExists := false
              srsExists := false },
    sim := env0 }

/-- A real-mode configuration whose witness generation raises a generic
execution error. -/
noncomputable def envBoom : Env :=
  { ezklMode := "real", ezklAvailable := true,
    real := { (realEnvOk true) with genWitnessResult := .error (.other "boom") },
    sim := env0 }

/-- A real-mode configuration where everything succeeds but local
verification returns `False`. -/
noncomputable def envVerifyFalse : Env :=
  { ezklMode := "real", ezklAvailable := true, real := realEnvOk false, sim := env0 }

/-- A fully healthy real-mode configuration. -/
noncomputable def envGood : Env :=
  { ezklMode := "real", ezklAvailable := true, real := realEnvOk true, sim := env0 }

/-- The returns list `[0.0, 1.5e-8]` separating the population standard
deviation (`7.5e-9`, below the threshold) from the sample standard
deviation (`~1.06e-8`, above it). -/
noncomputable def r0 : List ℝ := [0, 3 / (2 * 10 ^ 8)]

/-! # Theorems -/

/-! ## Sanity of the embedded hash -/

/-- FIPS 180-4 test vector: the digest of `"abc"`. -/
theorem sha256_abc_vector :
    sha256Nat (strBytes "abc") =
      84342368487090800366523834928142263660104883695016514377462985829716817089965 := by
  decide

/-! ## Hex-encoding lemmas -/

/-- A fixed-width hex rendering has exactly the requested width. -/
theorem length_toHexBE (w : Nat) : ∀ v, (toHexBE w v).length = w := by
  induction w with
  | zero => intro v; rfl
  | succ w ih => intro v; simp [toHexBE, ih]

/-- Digit value of a rendered hex digit below 16. -/
theorem hexCharVal_hexDigitChar : ∀ d < 16, hexCharVal (hexDigitChar d) = d := by
  decide

/-- Rendered hex digits below 16 lie in the hex alphabet. -/
theorem isHexChar_hexDigitChar : ∀ d < 16, isHexChar (hexDigitChar d) = true := by
  decide

/-- Every character of a fixed-width hex rendering is a hex digit. -/
theorem mem_toHexBE_isHex (w : Nat) : ∀ v, ∀ c ∈ toHexBE w v, isHexChar c = true := by
  induction w with
  | zero => intro v c hc; simp [toHexBE] at hc
  | succ w ih =>
    intro v c hc
    simp only [toHexBE, List.mem_append, List.mem_singleton] at hc
    rcases hc with hc | hc
    · exact ih _ c hc
    · subst hc
      exact isHexChar_hexDigitChar _ (Nat.mod_lt _ (by norm_num))

/-- Appending one character to a hex string shifts its parsed value. -/
theorem decodeHex_append_singleton (l : List Char) (c : Char) :
    decodeHex (l ++ [c]) = 16 * decodeHex l + hexCharVal c := by
  simp [decodeHex, List.foldl_append]

/-- Parsing inverts fixed-width rendering, modulo the width's range. -/
theorem decodeHex_toHexBE (w : Nat) : ∀ v, decodeHex (toHexBE w v) = v % 16 ^ w := by
  induction w with
  | zero => intro v; simp [toHexBE, decodeHex, Nat.mod_one]
  | succ w ih =>
    intro v
    rw [toHexBE, decodeHex_append_singleton, ih,
      hexCharVal_hexDigitChar _ (Nat.mod_lt _ (by norm_num))]
    have h16 : (16 : Nat) ^ (w + 1) = 16 * 16 ^ w := by ring
    rw [h16, Nat.mod_mul]
    omega

/-- A fixed-width byte rendering has exactly the requested width. -/
theorem length_natToBytesBE (w v : Nat) : (natToBytesBE w v).length = w := by
  simp [natToBytesBE]

/-- SHA-256 digests are 32 bytes long. -/
theorem length_sha256Bytes (m : List Nat) : (sha256Bytes m).length = 32 :=
  length_natToBytesBE 32 _

/-- Byte-string hex rendering emits two digits per byte. -/
theorem length_bytesToHex (l : List Nat) : (bytesToHex l).length = 2 * l.length := by
  induction l with
  | nil => rfl
  | cons hd tl ihtl =>
    simp only [bytesToHex, List.map_cons, List.flatten_cons, List.length_append,
      List.length_cons] at *
    rw [length_toHexBE, ihtl]
    omega

/-- Every character of a byte-string hex rendering is a hex digit. -/
theorem mem_bytesToHex_isHex (bs : List Nat) :
    ∀ c ∈ bytesToHex bs, isHexChar c = true := by
  intro c hc
  simp only [bytesToHex, List.mem_flatten, List.mem_map] at hc
  obtain ⟨l, ⟨b, _, hl⟩, hcl⟩ := hc
  exact mem_toHexBE_isHex 2 b c (hl ▸ hcl)

/-- Length of the flattening of `n` copies of a list. -/
theorem length_flatten_replicate {α : Type} (n : Nat) (l : List α) :
    ((List.replicate n l).flatten).length = n * l.length := by
  induction n with
  | zero => simp
  | succ k ihk =>
    simp only [List.replicate_succ, List.flatten_cons, List.length_append, ihk]
    ring

/-- Character list of a `0x`-prefixed rendering. -/
theorem data_zeroX (l : List Char) : ("0x" ++ String.mk l).data = '0' :: 'x' :: l := by
  have h : ("0x" ++ String.mk l) = String.mk ('0' :: 'x' :: l) := rfl
  rw [h]

/-! ## Claim C3: simulated instances and the scalar-field bound -/

/-- Helper: the worker's modulus is positive. -/
theorem BN254_FIELD_pos : 0 < BN254_FIELD := by decide

/-- Helper: the worker's modulus fits in 64 hex digits. -/
theorem BN254_FIELD_lt : BN254_FIELD < 16 ^ 64 := by decide

/-- C3 (amended): the simulated strategy always emits exactly 31
instances; each is a `0x`-prefixed 64-hex-digit string whose parsed
big-endian value is the SHA-256 digest of the per-index discriminator
reduced modulo the worker's `BN254_FIELD` modulus
`0x30644e72e131a029b85045b68181585d2833e84879b9709143e1f593f0000001`,
hence strictly below that modulus. -/
theorem simInstances_field_valid (env : SimEnv) :
    (simInstances env).length = 31 ∧
    ∀ s ∈ simInstances env,
      s.data.take 2 = ['0', 'x'] ∧
      (s.data.drop 2).length = 64 ∧
      (∀ c ∈ s.data.drop 2, isHexChar c = true) ∧
      instanceValue s < BN254_FIELD ∧
      ∃ i < 31,
        instanceValue s = sha256Nat (strBytes (simDisc env i)) % BN254_FIELD := by
  constructor
  · simp [simInstances]
  · intro s hs
    simp only [simInstances, List.mem_map, List.mem_range] at hs
    obtain ⟨i, hi, rfl⟩ := hs
    rw [data_zeroX]
    have hval : instanceValue ("0x" ++ String.mk (toHexBE 64 (simInstVal env i))) =
        simInstVal env i := by
      rw [instanceValue, data_zeroX]
      simp only [List.drop_succ_cons, List.drop_zero]
      rw [decodeHex_toHexBE]
      exact Nat.mod_eq_of_lt
        (lt_trans (Nat.mod_lt _ BN254_FIELD_pos) BN254_FIELD_lt)
    refine ⟨rfl, ?_, ?_, ?_, ⟨i, hi, ?_⟩⟩
    · simp [length_toHexBE]
    · intro c hc
      simp only [List.drop_succ_cons, List.drop_zero] at hc
      exact mem_toHexBE_isHex 64 _ c hc
    · rw [hval]
      exact Nat.mod_lt _ BN254_FIELD_pos
    · rw [hval]
      rfl

/-- C3 witness: concrete instance of the amended theorem at `env0`;
the first instance string is exactly the reduced digest of
`"inst_0_0.0_1700000000.0"`. -/
theorem simInstances_field_valid_witness :
    instanceValue
        "0x12dfb43f0f6209c7ac01f13a18d1f436e353998ae12b6a71a7e02947cdb1a675"
      < BN254_FIELD :=
  (((simInstances_field_valid env0).2 _ (by decide)).2.2.2).1

/-- C3 counterexample: the claim as stated is false — at `env0` the very
first simulated instance parses to a value that is not below the spec's
quoted 63-digit modulus (the spec's constant drops one zero of the BN254
scalar-field modulus; the code reduces modulo the full 64-digit value). -/
theorem simInstances_exceed_quoted_modulus :
    specQuotedModulus ≤
        instanceValue
          "0x12dfb43f0f6209c7ac01f13a18d1f436e353998ae12b6a71a7e02947cdb1a675" ∧
      ¬claimC3 := by
  constructor
  · decide
  · intro h
    have hmem :
        "0x12dfb43f0f6209c7ac01f13a18d1f436e353998ae12b6a71a7e02947cdb1a675" ∈
          simInstances env0 := by decide
    have hlt := ((h env0).2 _ hmem).2.2.1
    have hge :
        specQuotedModulus ≤
          instanceValue
            "0x12dfb43f0f6209c7ac01f13a18d1f436e353998ae12b6a71a7e02947cdb1a675" := by
      decide
    exact absurd hlt (not_lt.mpr hge)

/-! ## Claim C6: simulated proof_hex shape -/

/-- Helper: length of a `0x`-prefixed rendering. -/
theorem length_zeroX (l : List Char) : ("0x" ++ String.mk l).length = 2 + l.length := by
  have h : ("0x" ++ String.mk l) = String.mk ('0' :: 'x' :: l) := rfl
  rw [h]
  simp [String.length]
  omega

/-- C6: for every input, the simulated `proof_hex` is the `0x`-prefixed
hex encoding of the 32-byte SHA-256 seed of the payload repeated 96
times — a 3072-byte body — so it has exactly `2 + 2 * 3072 = 6146`
characters, all of them (after the prefix) hexadecimal digits. -/
theorem simProofHex_shape (env : SimEnv) :
    (sha256Bytes (strBytes env.payload)).length = 32 ∧
    ((List.replicate 96 (sha256Bytes (strBytes env.payload))).flatten).length = 3072 ∧
    (simProofHex env).length = 6146 ∧
    (simProofHex env).data.take 2 = ['0', 'x'] ∧
    ∀ c ∈ (simProofHex env).data.drop 2, isHexChar c = true := by
  have hseed := length_sha256Bytes (strBytes env.payload)
  have hbody :
      ((List.replicate 96 (sha256Bytes (strBytes env.payload))).flatten).length = 3072 := by
    rw [length_flatten_replicate, hseed]
  refine ⟨hseed, hbody, ?_, ?_, ?_⟩
  · rw [simProofHex, length_zeroX, length_bytesToHex, hbody]
  · rw [simProofHex, data_zeroX]
    rfl
  · intro c hc
    rw [simProofHex, data_zeroX] at hc
    simp only [List.drop_succ_cons, List.drop_zero] at hc
    exact mem_bytesToHex_isHex _ c hc

/-! ## Claim C10: job-id allocation -/

/-- C10: for every freshly drawn UUID4 (32 hexadecimal digit values),
the job id `str(uuid.uuid4())[:12]` has exactly 12 characters. -/
theorem jobIdOf_length (d : List Nat) (h : d.length = 32) :
    (jobIdOf d).length = 12 := by
  have hlen : (uuidCanonical d).length = 36 := by
    simp [uuidCanonical, h]
  rw [jobIdOf]
  simp [String.length, List.length_take, hlen]

/-- C10 witness: a concrete UUID digit list of length 32 yields a
12-character job id. -/
theorem jobIdOf_length_witness : (jobIdOf (List.replicate 32 5)).length = 12 :=
  jobIdOf_length _ (by decide)

/-! ## Executor helper lemmas -/

/-- A real run with all artifacts present and all three library calls
returning normally succeeds with the expected result record. -/
theorem run_real_ezkl_ok (env : RealEnv) (returns : List ℝ) (b : Bool)
    (hma : missingArtifacts env = [])
    (hgw : env.genWitnessResult = .ok ())
    (hpv : env.proveResult = .ok ())
    (hvf : env.verifyResult = .ok b) :
    run_real_ezkl env returns = ([30, 60, 85], .ok (realResult env returns b)) := by
  simp [run_real_ezkl, hma, hgw, hpv, hvf]

/-- A real run whose artifact check finds a missing file aborts with the
aggregated message before reporting any progress. -/
theorem run_real_ezkl_missing (env : RealEnv) (returns : List ℝ)
    (hma : missingArtifacts env ≠ []) :
    run_real_ezkl env returns = ([], .error (.fileNotFound (missingMsg env))) := by
  rw [run_real_ezkl, if_pos hma]

/-! ## Claim C5: non-FileNotFoundError exceptions propagate -/

/-- C5 (amended): when the selected strategy raises any exception that
is not of class `FileNotFoundError`, the executor does not retry: the
task's outcome is that same exception, and the gateway maps the
finalized `FAILURE` state to status `failed` with the exception's
description as the message. (An exception of class `FileNotFoundError`
— whether the artifact-check abort or a library-raised one — instead
triggers the simulated fallback and is not propagated.) -/
theorem prove_task_error_propagates (env : Env) (jobId agentId : String)
    (returns : List ℝ) (msg : String)
    (h : (selectedRun env returns).2 = .error (.other msg)) :
    (prove_task env jobId agentId returns).2 = .error (.other msg) ∧
    get_proof_status jobId (finalState (prove_task env jobId agentId returns).2) =
      ⟨jobId, "failed", 0, msg, none⟩ := by
  rcases hsel : selectedRun env returns with ⟨tr, out⟩
  rw [hsel] at h
  simp only at h
  subst h
  have hpt : (prove_task env jobId agentId returns).2 = .error (.other msg) := by
    simp [prove_task, hsel]
  exact ⟨hpt, by rw [hpt]; rfl⟩

/-- C5 witness: a generic execution error from `ezkl.gen_witness` in a
healthy real-mode deployment propagates and surfaces as `failed` with
message `"boom"`. -/
theorem prove_task_error_propagates_witness :
    (prove_task envBoom "j1" "agentA" []).2 = .error (.other "boom") ∧
    get_proof_status "j1" (finalState (prove_task envBoom "j1" "agentA" []).2) =
      ⟨"j1", "failed", 0, "boom", none⟩ :=
  prove_task_error_propagates envBoom "j1" "agentA" [] "boom" rfl

/-- C5 counterexample: the claim as stated is false. At `envLibFnf` the
real strategy raises a `FileNotFoundError` from the library call after
progress 30 was reported — an exception that is not the up-front
missing-required-artifacts abort — yet the executor retries via the
simulated fallback and the task succeeds instead of propagating the
exception and finalizing as `FAILURE`. -/
theorem prove_task_lib_fnf_retried : ¬claimC5 := by
  intro h
  have hsel : (selectedRun envLibFnf []).2 =
      .error (.fileNotFound "witness input vanished") := rfl
  have hnot : ¬∃ m, selectedRun envLibFnf [] = ([], .error (.fileNotFound m)) := by
    rintro ⟨m, hm⟩
    have h1 : (selectedRun envLibFnf []).1 = [30] := rfl
    rw [hm] at h1
    simp at h1
  have hout := (h envLibFnf "j" "a" [] _ hsel hnot).1
  have hok : (prove_task envLibFnf "j" "a" []).2 =
      .ok { simResult envLibFnf.sim [] with
             mode := "simulated (fallback)", job_id := "j", agent_id := "a" } := rfl
  rw [hok] at hout
  exact absurd hout (by simp)

/-! ## Claim C9: a non-verifying proof still completes -/

/-- C9: when local verification returns `False` without raising, the
real strategy still returns normally, the executor finalizes the job as
`SUCCESS` (client status `completed`), and the result records
`verified = false` with `mode = "real"`. -/
theorem prove_task_verify_false_completes (env : Env) (jobId agentId : String)
    (returns : List ℝ)
    (hu : useReal env = true)
    (hma : missingArtifacts env.real = [])
    (hgw : env.real.genWitnessResult = .ok ())
    (hpv : env.real.proveResult = .ok ())
    (hvf : env.real.verifyResult = .ok false) :
    ∃ r, (prove_task env jobId agentId returns).2 = .ok r ∧
      r.verified = false ∧ r.mode = "real" ∧
      (get_proof_status jobId
          (finalState (prove_task env jobId agentId returns).2)).status =
        "completed" := by
  have hsel : selectedRun env returns =
      ([30, 60, 85], .ok (realResult env.real returns false)) := by
    rw [selectedRun, if_pos (by rw [hu])]
    exact run_real_ezkl_ok env.real returns false hma hgw hpv hvf
  have hpt : (prove_task env jobId agentId returns).2 =
      .ok { realResult env.real returns false with
              job_id := jobId, agent_id := agentId } := by
    simp [prove_task, hsel]
  refine ⟨_, hpt, rfl, rfl, ?_⟩
  rw [hpt]
  rfl

/-- C9 witness: concrete healthy real-mode environment whose verifier
returns `False`; the job completes with `verified = false`. -/
theorem prove_task_verify_false_completes_witness :
    ∃ r, (prove_task envVerifyFalse "j2" "agentB" []).2 = .ok r ∧
      r.verified = false ∧ r.mode = "real" ∧
      (get_proof_status "j2"
          (finalState (prove_task envVerifyFalse "j2" "agentB" []).2)).status =
        "completed" :=
  prove_task_verify_false_completes envVerifyFalse "j2" "agentB" [] rfl rfl rfl rfl rfl

/-! ## Claim C8: the reported statistic comes from the raw returns -/

/-- C8: in every successful real-strategy execution — for returns of any
length — the statistic placed in the result is the Statistic Calculator
applied to the full original returns sequence, rounded to 4 decimal
places, not a function of the padded/truncated/normalized circuit
input. -/
theorem run_real_statistic_from_raw (env : RealEnv) (returns : List ℝ) (b : Bool)
    (hma : missingArtifacts env = [])
    (hgw : env.genWitnessResult = .ok ())
    (hpv : env.proveResult = .ok ())
    (hvf : env.verifyResult = .ok b) :
    ∃ res, (run_real_ezkl env returns).2 = .ok res ∧
      res.statistic_value = pyRound4 (compute_sharpe returns) := by
  refine ⟨realResult env returns b, ?_, rfl⟩
  rw [run_real_ezkl_ok env returns b hma hgw hpv hvf]

/-- C8 witness: concrete healthy real environment, with a 31-element
returns list (longer than the 30-element circuit input). -/
theorem run_real_statistic_from_raw_witness :
    ∃ res, (run_real_ezkl (realEnvOk true) (List.replicate 31 1)).2 = .ok res ∧
      res.statistic_value = pyRound4 (compute_sharpe (List.replicate 31 1)) :=
  run_real_statistic_from_raw (realEnvOk true) (List.replicate 31 1) true rfl rfl rfl rfl

/-! ## Claim C2: the fallback-mode invariant -/

/-- Exhaustive case analysis of one executor run: simulated path, real
path aborted by a `FileNotFoundError` (fallback), real path aborted by
another exception (propagated), or real path success. -/
theorem prove_task_cases (env : Env) (jobId agentId : String) (returns : List ℝ) :
    (useReal env = false ∧
      prove_task env jobId agentId returns =
        (10 :: simTrace, .ok { simResult env.sim returns with
                                job_id := jobId, agent_id := agentId })) ∨
    (useReal env = true ∧ ∃ tr m,
      run_real_ezkl env.real returns = (tr, .error (.fileNotFound m)) ∧
      prove_task env jobId agentId returns =
        (10 :: (tr ++ simTrace), .ok { simResult env.sim returns with
                                        mode := "simulated (fallback)",
                                        job_id := jobId, agent_id := agentId })) ∨
    (useReal env = true ∧ ∃ tr m,
      run_real_ezkl env.real returns = (tr, .error (.other m)) ∧
      prove_task env jobId agentId returns = (10 :: tr, .error (.other m))) ∨
    (useReal env = true ∧ ∃ tr res,
      run_real_ezkl env.real returns = (tr, .ok res) ∧
      prove_task env jobId agentId returns =
        (10 :: tr, .ok { res with job_id := jobId, agent_id := agentId })) := by
  cases hu : useReal env with
  | false =>
    have hsel : selectedRun env returns = (simTrace, .ok (simResult env.sim returns)) := by
      rw [selectedRun, if_neg (by simp [hu]), run_simulated]
    exact Or.inl ⟨rfl, by simp [prove_task, hsel]⟩
  | true =>
    have hself : ∀ p, run_real_ezkl env.real returns = p → selectedRun env returns = p := by
      intro p hp
      rw [selectedRun, if_pos (by rw [hu]), hp]
    rcases hre : run_real_ezkl env.real returns with ⟨tr, out⟩
    cases out with
    | error e =>
      cases e with
      | fileNotFound m =>
        refine Or.inr (Or.inl ⟨rfl, tr, m, rfl, ?_⟩)
        simp [prove_task, hself _ hre, run_simulated]
      | other m =>
        refine Or.inr (Or.inr (Or.inl ⟨rfl, tr, m, rfl, ?_⟩))
        simp [prove_task, hself _ hre]
    | ok res =>
      refine Or.inr (Or.inr (Or.inr ⟨rfl, tr, res, rfl, ?_⟩))
      simp [prove_task, hself _ hre]

/-- A real run that returns normally reports `mode = "real"`. -/
theorem run_real_ezkl_ok_mode (env : RealEnv) (returns : List ℝ) (res : ProofResult)
    (h : (run_real_ezkl env returns).2 = .ok res) : res.mode = "real" := by
  rw [run_real_ezkl] at h
  by_cases hma : missingArtifacts env = []
  · rw [if_neg (by simp [hma])] at h
    cases hgw : env.genWitnessResult with
    | error e => rw [hgw] at h; exact absurd h (by simp)
    | ok u =>
      rw [hgw] at h
      cases hpv : env.proveResult with
      | error e => rw [hpv] at h; exact absurd h (by simp)
      | ok u2 =>
        rw [hpv] at h
        cases hvf : env.verifyResult with
        | error e => rw [hvf] at h; exact absurd h (by simp)
        | ok b =>
          rw [hvf] at h
          simp only [Except.ok.injEq] at h
          rw [← h]
          rfl
  · rw [if_pos hma] at h
    exact absurd h (by simp)

/-- C2 (amended): a successful task has `mode = "simulated (fallback)"`
exactly when the real strategy was selected and raised an exception of
class `FileNotFoundError` — whether from the up-front aggregated
missing-artifacts check (which fires before any progress report) or
from a library call raising that class mid-pipeline; in every fallback
the re-executed simulated strategy sets `verified = true`; and a
missing artifact always aborts with an empty trace, i.e. before any
side effect. -/
theorem prove_task_fallback_characterization
    (env : Env) (jobId agentId : String) (returns : List ℝ) (r : ProofResult)
    (h : (prove_task env jobId agentId returns).2 = .ok r) :
    ((r.mode = "simulated (fallback)") ↔
      (useReal env = true ∧
        ∃ m, (run_real_ezkl env.real returns).2 = .error (.fileNotFound m))) ∧
    (r.mode = "simulated (fallback)" → r.verified = true) ∧
    (missingArtifacts env.real ≠ [] →
      run_real_ezkl env.real returns =
        ([], .error (.fileNotFound (missingMsg env.real)))) := by
  refine ⟨?_, ?_, fun hne => run_real_ezkl_missing env.real returns hne⟩ <;>
    rcases prove_task_cases env jobId agentId returns with
      ⟨hu, hpt⟩ | ⟨hu, tr, m, hre, hpt⟩ | ⟨hu, tr, m, hre, hpt⟩ | ⟨hu, tr, res, hre, hpt⟩
  · rw [hpt] at h
    simp only [Except.ok.injEq] at h
    subst h
    refine ⟨fun hmode =>
      absurd (show "simulated" = "simulated (fallback)" from hmode) (by decide),
      fun hrhs => ?_⟩
    rw [hu] at hrhs
    exact absurd hrhs.1 (by decide)
  · rw [hpt] at h
    simp only [Except.ok.injEq] at h
    subst h
    exact ⟨fun _ => ⟨hu, m, by rw [hre]⟩, fun _ => rfl⟩
  · rw [hpt] at h
    exact absurd h (by simp)
  · rw [hpt] at h
    simp only [Except.ok.injEq] at h
    subst h
    have hm : res.mode = "real" := run_real_ezkl_ok_mode env.real returns res (by rw [hre])
    constructor
    · intro hmode
      have : res.mode = "simulated (fallback)" := hmode
      rw [hm] at this
      exact absurd this (by decide)
    · rintro ⟨-, m, hfnf⟩
      rw [hre] at hfnf
      exact absurd hfnf (by simp)
  · rw [hpt] at h
    simp only [Except.ok.injEq] at h
    subst h
    exact fun hmode =>
      absurd (show "simulated" = "simulated (fallback)" from hmode) (by decide)
  · rw [hpt] at h
    simp only [Except.ok.injEq] at h
    subst h
    exact fun _ => rfl
  · rw [hpt] at h
    exact absurd h (by simp)
  · rw [hpt] at h
    simp only [Except.ok.injEq] at h
    subst h
    intro hmode
    have hm : res.mode = "real" := run_real_ezkl_ok_mode env.real returns res (by rw [hre])
    have : res.mode = "simulated (fallback)" := hmode
    rw [hm] at this
    exact absurd this (by decide)

/-- C2 witness: the spec's concrete scenario — real mode configured,
library available, all six artifacts missing — yields a successful
result with `mode = "simulated (fallback)"` and `verified = true`. -/
theorem prove_task_fallback_characterization_witness :
    ∃ r, (prove_task envAllMissing "j3" "agentC" []).2 = .ok r ∧
      r.mode = "simulated (fallback)" ∧ r.verified = true := by
  refine ⟨{ simResult envAllMissing.sim [] with
             mode := "simulated (fallback)", job_id := "j3", agent_id := "agentC" },
         rfl, rfl, ?_⟩
  exact (prove_task_fallback_characterization envAllMissing "j3" "agentC" [] _ rfl).2.1 rfl

/-- C2 counterexample: the claim as stated is false. In a real-mode
environment with all artifacts present whose `ezkl.gen_witness` call
raises a `FileNotFoundError`, the result's mode is
`"simulated (fallback)"` although the abort happened after a side
effect (progress 30 was already reported: the real trace is `[30]`,
not `[]`). -/
theorem prove_task_fallback_after_side_effect : ¬claimC2 := by
  intro h
  have hok : (prove_task envLibFnf "j" "a" []).2 =
      .ok { simResult envLibFnf.sim [] with
             mode := "simulated (fallback)", job_id := "j", agent_id := "a" } := rfl
  have hiff := (h envLibFnf "j" "a" [] _ hok).1
  have hfb := hiff.mp rfl
  obtain ⟨-, m, hm⟩ := hfb
  have h30 : run_real_ezkl envLibFnf.real [] =
      ([30], .error (.fileNotFound "witness input vanished")) := rfl
  rw [h30] at hm
  have := congrArg Prod.fst hm
  simp at this

/-! ## Claim C4: strictly increasing progress -/

/-- C4 (amended): the progress values reported during one execution —
10 at initialization, then the selected strategy's reports — are
strictly increasing, provided any `FileNotFoundError` arises from the
up-front artifact check rather than from one of the three library calls
(a library-raised `FileNotFoundError` triggers the fallback mid-run and
restarts progress at 25). -/
theorem prove_task_progress_strict (env : Env) (jobId agentId : String)
    (returns : List ℝ) (h : noLibFnf env.real) :
    List.Chain' (· < ·) (prove_task env jobId agentId returns).1 := by
  obtain ⟨hgw, hpv, hvf⟩ := h
  cases hu : useReal env with
  | false =>
    have hsel : selectedRun env returns = (simTrace, .ok (simResult env.sim returns)) := by
      rw [selectedRun, if_neg (by simp [hu]), run_simulated]
    have htr : (prove_task env jobId agentId returns).1 = [10, 25, 50, 75, 90] := by
      simp [prove_task, hsel, simTrace]
    rw [htr]
    simp only [List.chain'_cons, List.chain'_singleton, and_true]
    omega
  | true =>
    have hself : ∀ p, run_real_ezkl env.real returns = p → selectedRun env returns = p := by
      intro p hp
      rw [selectedRun, if_pos (by rw [hu]), hp]
    cases hma : missingArtifacts env.real with
    | cons a l =>
      have hre := run_real_ezkl_missing env.real returns (by rw [hma]; simp)
      have htr : (prove_task env jobId agentId returns).1 = [10, 25, 50, 75, 90] := by
        simp [prove_task, hself _ hre, run_simulated, simTrace]
      rw [htr]
      simp only [List.chain'_cons, List.chain'_singleton, and_true]
      omega
    | nil =>
      cases hgwv : env.real.genWitnessResult with
      | error e =>
        cases e with
        | fileNotFound m => exact absurd hgwv (hgw m)
        | other m =>
          have hre : run_real_ezkl env.real returns = ([30], .error (.other m)) := by
            simp [run_real_ezkl, hma, hgwv]
          have htr : (prove_task env jobId agentId returns).1 = [10, 30] := by
            simp [prove_task, hself _ hre]
          rw [htr]
          simp only [List.chain'_cons, List.chain'_singleton, and_true]
          omega
      | ok u =>
        cases hpvv : env.real.proveResult with
        | error e =>
          cases e with
          | fileNotFound m => exact absurd hpvv (hpv m)
          | other m =>
            have hre : run_real_ezkl env.real returns = ([30, 60], .error (.other m)) := by
              simp [run_real_ezkl, hma, hgwv, hpvv]
            have htr : (prove_task env jobId agentId returns).1 = [10, 30, 60] := by
              simp [prove_task, hself _ hre]
            rw [htr]
            simp only [List.chain'_cons, List.chain'_singleton, and_true]
            omega
        | ok u2 =>
          cases hvfv : env.real.verifyResult with
          | error e =>
            cases e with
            | fileNotFound m => exact absurd hvfv (hvf m)
            | other m =>
              have hre : run_real_ezkl env.real returns =
                  ([30, 60, 85], .error (.other m)) := by
                simp [run_real_ezkl, hma, hgwv, hpvv, hvfv]
              have htr : (prove_task env jobId agentId returns).1 = [10, 30, 60, 85] := by
                simp [prove_task, hself _ hre]
              rw [htr]
              simp only [List.chain'_cons, List.chain'_singleton, and_true]
              omega
          | ok b =>
            have hre : run_real_ezkl env.real returns =
                ([30, 60, 85], .ok (realResult env.real returns b)) := by
              simp [run_real_ezkl, hma, hgwv, hpvv, hvfv]
            have htr : (prove_task env jobId agentId returns).1 = [10, 30, 60, 85] := by
              simp [prove_task, hself _ hre]
            rw [htr]
            simp only [List.chain'_cons, List.chain'_singleton, and_true]
            omega

/-- C4 witness: a healthy real-mode run reports the strictly increasing
progress sequence. -/
theorem prove_task_progress_strict_witness :
    List.Chain' (· < ·) (prove_task envGood "j4" "agentD" []).1 :=
  prove_task_progress_strict envGood "j4" "agentD" []
    ⟨(fun _ hc => nomatch hc), (fun _ hc => nomatch hc), (fun _ hc => nomatch hc)⟩

/-- C4 counterexample: the claim as stated is false — in a real-mode
environment whose `ezkl.gen_witness` raises a `FileNotFoundError`
mid-pipeline, the reported progress sequence is
`[10, 30, 25, 50, 75, 90]`, which is not strictly increasing. -/
theorem prove_task_progress_not_strict : ¬claimC4 := by
  intro h
  have htr : (prove_task envLibFnf "j" "a" []).1 = [10, 30, 25, 50, 75, 90] := rfl
  have hc := h envLibFnf "j" "a" []
  rw [htr] at hc
  simp only [List.chain'_cons, List.chain'_singleton, and_true] at hc
  omega

/-! ## Claim C7: circuit-input padding, truncation and normalization -/

/-- The padded/truncated returns list always has exactly 30 entries. -/
theorem length_padTruncate30 (returns : List ℝ) : (padTruncate30 returns).length = 30 := by
  rw [padTruncate30]
  split_ifs with h
  · simp only [List.length_take]
    omega
  · simp only [List.length_append, List.length_replicate]
    omega

/-- Pointwise description of padding and truncation: below the original
length the original entry, above it the `0.0` filler. -/
theorem padTruncate30_getD (returns : List ℝ) (i : Nat) (hi : i < 30) :
    (padTruncate30 returns).getD i 0 =
      if i < returns.length then returns.getD i 0 else 0 := by
  rw [padTruncate30]
  split_ifs with h h2 h2
  · rw [List.getD_eq_getElem _ _ (by simp only [List.length_take]; omega)]
    rw [List.getElem_take]
    rw [List.getD_eq_getElem _ _ (by omega)]
  · omega
  · rw [List.getD_eq_getElem _ _ (by simp only [List.length_append, List.length_replicate]; omega)]
    rw [List.getElem_append_left h2]
    rw [List.getD_eq_getElem _ _ h2]
  · rw [List.getD_eq_getElem _ _ (by simp only [List.length_append, List.length_replicate]; omega)]
    rw [List.getElem_append_right (by omega)]
    simp only [List.getElem_replicate]

/-- Identity normalization: zero means and unit stds leave the first `n`
entries unchanged. -/
theorem zipWith_identity_norm (l : List ℝ) (n : Nat) :
    List.zipWith (fun x p => (x - p.1) / p.2) l
      (List.replicate n ((0 : ℝ), (1 : ℝ))) = l.take n := by
  induction l generalizing n with
  | nil => simp
  | cons a l ih =>
    cases n with
    | zero => simp
    | succ n => simp [List.replicate_succ, ih]

/-- C7: the circuit input has exactly 30 elements — the returns padded
at the end with `0.0` when shorter than 30 and truncated to the first
30 when longer — affinely normalized per feature with the persisted
mean/std parameters when the normalization file exists (hypotheses: the
stored vectors have the circuit width 30), and identically (mean 0,
std 1) when it does not. -/
theorem circuitInput_spec (norm : Option (List ℝ × List ℝ)) (returns : List ℝ)
    (hm : (normMean norm).length = 30) (hs : (normStd norm).length = 30) :
    (padTruncate30 returns).length = 30 ∧
    (circuitInput norm returns).length = 30 ∧
    (∀ i, i < 30 →
      (padTruncate30 returns).getD i 0 =
        if i < returns.length then returns.getD i 0 else 0) ∧
    (∀ i, i < 30 →
      (circuitInput norm returns).getD i 0 =
        ((padTruncate30 returns).getD i 0 - (normMean norm).getD i 0) /
          (normStd norm).getD i 0) ∧
    (norm = none → circuitInput norm returns = padTruncate30 returns) := by
  have h30 := length_padTruncate30 returns
  have hzl : (circuitInput norm returns).length = 30 := by
    simp only [circuitInput, List.length_zipWith, List.length_zip, hm, hs, h30]
    omega
  refine ⟨h30, hzl, fun i hi => padTruncate30_getD returns i hi, fun i hi => ?_, fun hn => ?_⟩
  · simp only [circuitInput]
    rw [List.getD_eq_getElem _ _
      (by simp only [List.length_zipWith, List.length_zip, hm, hs, h30]; omega)]
    rw [List.getElem_zipWith, List.getElem_zip]
    rw [List.getD_eq_getElem _ _ (by omega), List.getD_eq_getElem _ _ (by omega),
      List.getD_eq_getElem _ _ (by omega)]
  · subst hn
    simp only [circuitInput, normMean, normStd, List.zip_replicate, Nat.min_self]
    rw [zipWith_identity_norm, List.take_of_length_le (by rw [h30])]

/-- C7 witness: with no normalization file and a 3-element input, the
circuit input is the 30-element zero-padded list itself. -/
theorem circuitInput_spec_witness :
    (circuitInput none [(1 : ℝ), 2, 3]).length = 30 ∧
    circuitInput none [(1 : ℝ), 2, 3] = padTruncate30 [(1 : ℝ), 2, 3] :=
  ⟨(circuitInput_spec none [1, 2, 3] (by simp [normMean]) (by simp [normStd])).2.1,
   (circuitInput_spec none [1, 2, 3] (by simp [normMean]) (by simp [normStd])).2.2.2.2 rfl⟩

/-! ## Claim C1: the Statistic Calculator's contract -/

/-- The calculator in terms of the spec-side mean and (population)
standard deviation: the two write identical expressions, so this is
definitional. -/
theorem compute_sharpe_eq (r : List ℝ) :
    compute_sharpe r =
      if r.length < 2 then 0
      else if popStd r < 1 / 10 ^ 8 then 0
      else listMean r / popStd r * Real.sqrt 252 := rfl

/-- C1 (amended): the calculator returns exactly `0` when fewer than 2
values are supplied or when the standard deviation computed with
divisor `n` (the population standard deviation, `np.std`'s default) is
below `1e-8`; for every other sequence it returns
`mean / popStd * sqrt 252`. -/
theorem compute_sharpe_characterization (r : List ℝ) :
    ((r.length < 2 ∨ popStd r < 1 / 10 ^ 8) → compute_sharpe r = 0) ∧
    (¬(r.length < 2 ∨ popStd r < 1 / 10 ^ 8) →
      compute_sharpe r = listMean r / popStd r * Real.sqrt 252) := by
  constructor
  · rintro (hl | hs)
    · rw [compute_sharpe_eq, if_pos hl]
    · by_cases h1 : r.length < 2
      · rw [compute_sharpe_eq, if_pos h1]
      · rw [compute_sharpe_eq, if_neg h1, if_pos hs]
  · intro hn
    rw [not_or] at hn
    rw [compute_sharpe_eq, if_neg hn.1, if_neg hn.2]

/-- C1 witness: a single-element sequence yields exactly `0`. -/
theorem compute_sharpe_characterization_witness : compute_sharpe [(1 : ℝ)] = 0 :=
  (compute_sharpe_characterization [1]).1 (Or.inl (by norm_num))

/-- Helper: the squared-deviation sum of `r0`. -/
theorem r0_map_sum :
    (r0.map (fun t => (t - r0.sum / r0.length) ^ 2)).sum = 9 / (8 * 10 ^ 16) := by
  simp [r0]
  norm_num

/-- Helper: the population standard deviation of `r0` is `7.5e-9`. -/
theorem r0_popStd : popStd r0 = 3 / (4 * 10 ^ 8) := by
  rw [popStd, r0_map_sum]
  have hlen : ((r0.length : ℝ)) = 2 := by simp [r0]
  rw [hlen]
  rw [show (9 / (8 * 10 ^ 16) : ℝ) / 2 = (3 / (4 * 10 ^ 8)) ^ 2 by norm_num]
  exact Real.sqrt_sq (by norm_num)

/-- Helper: the sample standard deviation of `r0` is `sqrt 1.125e-16`. -/
theorem r0_sampleStd : sampleStd r0 = Real.sqrt (9 / (8 * 10 ^ 16)) := by
  rw [sampleStd, r0_map_sum]
  have hlen : ((r0.length : ℝ)) = 2 := by simp [r0]
  rw [hlen]
  norm_num

/-- Helper: the sample standard deviation of `r0` reaches the `1e-8`
threshold. -/
theorem r0_sampleStd_ge : (1 / 10 ^ 8 : ℝ) ≤ sampleStd r0 := by
  rw [r0_sampleStd]
  rw [show (1 / 10 ^ 8 : ℝ) = Real.sqrt ((1 / 10 ^ 8) ^ 2) from
    (Real.sqrt_sq (by norm_num)).symm]
  exact Real.sqrt_le_sqrt (by norm_num)

/-- Helper: the calculator returns `0` on `r0` (its population standard
deviation `7.5e-9` is below the threshold). -/
theorem r0_compute_sharpe : compute_sharpe r0 = 0 := by
  rw [compute_sharpe_eq, if_neg (by simp [r0])]
  rw [if_pos (by rw [r0_popStd]; norm_num)]

/-- C1 counterexample: the claim as stated — with the *sample* standard
deviation (divisor `n - 1`) — is false at `r0 = [0.0, 1.5e-8]`: the
sample standard deviation is `~1.06e-8 ≥ 1e-8`, so the claim demands
the nonzero ratio `mean / stddev * sqrt 252`, but the code returns
exactly `0` because `np.std`'s population standard deviation `7.5e-9`
is below the threshold. -/
theorem compute_sharpe_sample_std_refuted : ¬claimC1 := by
  intro h
  obtain ⟨-, h1⟩ := h r0
  have hnot : ¬(r0.length < 2 ∨ sampleStd r0 < 1 / 10 ^ 8) := by
    push_neg
    exact ⟨by simp [r0], r0_sampleStd_ge⟩
  have heq := h1 hnot
  rw [r0_compute_sharpe] at heq
  have hmean : listMean r0 = 3 / (4 * 10 ^ 8) := by
    rw [listMean]
    have hlen : ((r0.length : ℝ)) = 2 := by simp [r0]
    have hsum : r0.sum = 3 / (2 * 10 ^ 8) := by simp [r0]
    rw [hlen, hsum]
    norm_num
  have hpos : 0 < listMean r0 / sampleStd r0 * Real.sqrt 252 := by
    apply mul_pos
    · apply div_pos
      · rw [hmean]
        norm_num
      · rw [r0_sampleStd]
        exact Real.sqrt_pos.mpr (by norm_num)
    · exact Real.sqrt_pos.mpr (by norm_num)
  exact absurd heq.symm (ne_of_gt hpos)

end SIB
